import Mathlib

/-!
Verification development for the MCP2515 CAN controller driver
(`src/can.c`, `src/can.h`).

The driver is embedded shallowly:

* every C `uint8_t`/`uint32_t` value is a `Nat`; narrowing conversions that
  can actually truncate are written with an explicit `% 256` (the structure
  fields below stand for the stored machine values, which are below their
  type's bound by construction on the C side, so reading a field needs no
  extra reduction);
* every driver function is a pure Lean function; the SPI side effects are
  reified as a trace of register-layer operations (`RegOp`), one per call of
  the primitives `CAN_Control_Register_Write` / `_Read` / `_Bit` and per
  `TIM3_Delay_us` call.  A register-layer operation records the primitive
  that was invoked; `RegOp.lower` expands it to the byte-level SPI events
  the primitive produces (which is where the `hcan->spi` validity guard of
  the C primitives lives, exactly as in the source);
* values read back from the controller are supplied by an oracle
  `env : Nat → Nat` giving the byte delivered for each register address
  (bus data when the transport is valid, arbitrary garbage otherwise —
  theorems quantify over `env`, so "arbitrary" is captured soundly);
* each API function returns the handle it leaves behind next to its trace;
  the C functions never assign to `hcan->...`, so the handle component is
  the input handle.
-/

/-! ## Constants from `can.h` (the ones the embedded functions use) -/

def OSC1_FREQ : Nat := 8000000

def CAN_SPI1 : Nat := 0x00
def CAN_SPI2 : Nat := 0x01

/-- GET_OST from can.h: oscillator start-up time in microseconds,
128 oscillator periods, `128000000UL / osc_freq`. -/
def GET_OST (osc_freq : Nat) : Nat := 128000000 / osc_freq

def RESET_INS : Nat := 0xC0
def WRITE_INS : Nat := 0x02
def READ_INS : Nat := 0x03
def BIT_MODIFY_INS : Nat := 0x05

def CAN_BAUD_500_KBPS : Nat := 500000
def CAN_BAUD_250_KBPS : Nat := 250000
def CAN_BAUD_125_KBPS : Nat := 125000
def CAN_BAUD_100_KBPS : Nat := 100000
def CAN_BAUD_50_KBPS : Nat := 50000

def NORMAL_OP_MODE : Nat := 0x00
def SLEEP_OP_MODE : Nat := 0x01
def LOOPBACK_OP_MODE : Nat := 0x02
def LISTEN_ONLY_OP_MODE : Nat := 0x03
def CONFIGURATION_OP_MODE : Nat := 0x04

def RXB0_TURN_MASKS_FILTERS_OFF : Nat := 0x01
def RXB1_TURN_MASKS_FILTERS_OFF : Nat := 0x02
def RXB0_ROLLOVER_ENABLED : Nat := 0x01

def ROLLOVER_OCCURRED : Nat := 0x01
def ROLLOVER_NOT_OCCURRED : Nat := 0x00

def TXB0 : Nat := 0x01
def TXB1 : Nat := 0x02
def TXB2 : Nat := 0x04

def RXB0 : Nat := 0x01
def RXB1 : Nat := 0x02

def TX_STANDARD_DATA_FRAME : Nat := 0x00
def TX_EXTENDED_DATA_FRAME : Nat := 0x01
def TX_STANDARD_REMOTE_FRAME : Nat := 0x02
def TX_EXTENDED_REMOTE_FRAME : Nat := 0x03

def RX_STANDARD_DATA_FRAME : Nat := 0x00
def RX_EXTENDED_DATA_FRAME : Nat := 0x01
def RX_STANDARD_REMOTE_FRAME : Nat := 0x02
def RX_EXTENDED_REMOTE_FRAME : Nat := 0x03

def RXM0 : Nat := 0x01
def RXM1 : Nat := 0x02

def RXF0 : Nat := 0x01
def RXF1 : Nat := 0x02
def RXF2 : Nat := 0x04
def RXF3 : Nat := 0x08
def RXF4 : Nat := 0x10
def RXF5 : Nat := 0x20

def TX_PENDING : Nat := 0x00
def TX_LOST_ARBITRATION : Nat := 0x01
def TX_BUS_ERROR : Nat := 0x02
def TX_BUS_ERROR_AND_LOST_ARBITRATION : Nat := 0x03
def TX_ABORTED : Nat := 0x04
def TX_SUCCESS : Nat := 0x05

def RXF0SIDH_REG : Nat := 0x00
def RXF1SIDH_REG : Nat := 0x04
def RXF2SIDH_REG : Nat := 0x08
def CANCTRL_REG : Nat := 0x0F
def RXF3SIDH_REG : Nat := 0x10
def RXF4SIDH_REG : Nat := 0x14
def RXF5SIDH_REG : Nat := 0x18
def RXM0SIDH_REG : Nat := 0x20
def RXM1SIDH_REG : Nat := 0x24
def CNF3_REG : Nat := 0x28
def CANINTE_REG : Nat := 0x2B
def CANINTF_REG : Nat := 0x2C
def EFLG_REG : Nat := 0x2D
def TXB0CTRL_REG : Nat := 0x30
def TXB0SIDH_REG : Nat := 0x31
def TXB0D0_REG : Nat := 0x36
def TXB1CTRL_REG : Nat := 0x40
def TXB1SIDH_REG : Nat := 0x41
def TXB1D0_REG : Nat := 0x46
def TXB2CTRL_REG : Nat := 0x50
def TXB2SIDH_REG : Nat := 0x51
def TXB2D0_REG : Nat := 0x56
def RXB0CTRL_REG : Nat := 0x60
def RXB0SIDH_REG : Nat := 0x61
def RXB0SIDL_REG : Nat := 0x62
def RXB0EID8_REG : Nat := 0x63
def RXB0EID0_REG : Nat := 0x64
def RXB0DLC_REG : Nat := 0x65
def RXB0D0_REG : Nat := 0x66
def RXB1CTRL_REG : Nat := 0x70
def RXB1SIDH_REG : Nat := 0x71
def RXB1SIDL_REG : Nat := 0x72
def RXB1EID8_REG : Nat := 0x73
def RXB1EID0_REG : Nat := 0x74
def RXB1DLC_REG : Nat := 0x75
def RXB1D0_REG : Nat := 0x76
def RXB1D1_REG : Nat := 0x77

def SRR_RECEIVED_STANDARD_REMOTE_REQUEST : Nat := 0x10
def IDE_RECEIVED_EXTENDED_FRAME : Nat := 0x08
def EXIDE_MSG_TRANSMIT_EXTENDED_ID : Nat := 0x08
def EXIDE_FILTER_APPLY_ONLY_EXTENDED_FRAMES : Nat := 0x08

def RTR_TRANSMIT_REMOTE_FRAME_REQUEST : Nat := 0x40
def RTR_RECEIVED_REMOTE_FRAME_REQUEST : Nat := 0x40
def DLC_MASK : Nat := 0x0F

def ABTF_MESSAGE_ABORTED : Nat := 0x40
def ABTF_TRANSMISSION_COMPLETE : Nat := 0x00
def MLOA_LOST_ARBITRATION : Nat := 0x20
def TXERR_BUS_ERROR : Nat := 0x10
def TXREQ_PENDING : Nat := 0x08
def TXREQ_NO_PENDING : Nat := 0x00

def RXM_RECEIVE_ANY_MESSAGE : Nat := 0x60
def ROLLOVER_ACCEPTANCE_FILTER_0 : Nat := 0x06
def BUKT_RXB0_ROLLOVER_ENABLED : Nat := 0x04
def BUKT1_RXB0_ROLLOVER_ENABLED : Nat := 0x02
def FILHIT_BIT_2 : Nat := 0x04
def FILHIT_BIT_1 : Nat := 0x02
def FILHIT_BIT_0 : Nat := 0x01

def REQOP_CONFIGURATION_MODE : Nat := 0x80
def REQOP_LISTEN_MODE : Nat := 0x60
def REQOP_LOOPBACK_MODE : Nat := 0x40
def REQOP_SLEEP_MODE : Nat := 0x20
def REQOP_NORMAL_MODE : Nat := 0x00
def ABAT_REQ_ABORT_TX : Nat := 0x10
def ABAT_TERMINATE_REQ_ABORT_TX : Nat := 0x00

def WAKFIL_ENABLED : Nat := 0x40
def PHSEG2_3TQ : Nat := 0x02
def PHSEG2_6TQ : Nat := 0x05
def PHSEG2_7TQ : Nat := 0x06

def BTLMODE_PS2_PHSEG2_CNF3 : Nat := 0x80
def PHSEG1_2TQ : Nat := 0x08
def PHSEG1_5TQ : Nat := 0x20
def PHSEG1_6TQ : Nat := 0x28
def PRSEG_2TQ : Nat := 0x01
def PRSEG_3TQ : Nat := 0x02
def PRSEG_4TQ : Nat := 0x03
def PRSEG_6TQ : Nat := 0x05

def SJW_1TQ : Nat := 0x00
def BRP_BIT_1 : Nat := 0x02
def BRP_BIT_0 : Nat := 0x01

/-! ## Data model (structures from `can.h`)

The C arrays of per-buffer parameters are modelled as functions from the
buffer ordinal; `data` maps buffer ordinal and byte index to the stored
byte.  Indices outside the C array bounds read unspecified values in C; the
model makes them total, and no theorem below depends on such an index
except through universally quantified descriptors. -/

structure CAN_Control_HandleTypeDef where
  spi : Nat
  opmode : Nat
  oneshot : Nat
  samplepoint : Nat
  wakeupfilter : Nat
  rxbufferopmode : Nat
  rxbuffer0rollover : Nat
  baudrate : Nat

structure CAN_Control_RX_Mask where
  rxmasknmbr : Nat
  rxmaskvalue : Nat → Nat

structure CAN_Control_RX_Filter where
  rxfilternmbr : Nat
  extendedidenable : Nat
  rxfiltervalue : Nat → Nat

structure CAN_Control_TX where
  txbuffernmbr : Nat
  txframetype : Nat → Nat
  datalength : Nat → Nat
  data : Nat → Nat → Nat
  txid : Nat → Nat

/-- RX descriptor; the C arrays `rxframetype[2]`, `datalength[2]`,
`accfilter[2]`, `rxid[2]`, `data[2][8]` are flattened into per-buffer
fields (`...0` for RXB0, `...1` for RXB1). -/
structure CAN_Control_RX where
  rxbuffernmbr : Nat
  rxframetype0 : Nat
  rxframetype1 : Nat
  datalength0 : Nat
  datalength1 : Nat
  accfilter0 : Nat
  accfilter1 : Nat
  rolloverstatus : Nat
  data0 : List Nat
  data1 : List Nat
  rxid0 : Nat
  rxid1 : Nat

/-! ## SPI trace algebra -/

/-- One register-layer operation: a call of one of the SPI command
primitives of `can.c`, or a direct `TIM3_Delay_us` call. -/
inductive RegOp where
  | resetIns : RegOp
  | write : Nat → List Nat → RegOp
  | readN : Nat → Nat → RegOp
  | bitMod : Nat → Nat → Nat → RegOp
  | delay : Nat → RegOp
  | spiInit : Nat → RegOp
  deriving DecidableEq

/-- Byte-level SPI event: chip-select edges, a byte written on MOSI, a
burst of `n` bytes read on MISO, a blocking delay, or the external
SPI-peripheral bring-up. -/
inductive SpiEv where
  | csOn : SpiEv
  | csOff : SpiEv
  | wr : Nat → SpiEv
  | rd : Nat → SpiEv
  | delay : Nat → SpiEv
  | spiInit : Nat → SpiEv
  deriving DecidableEq

/-- Expansion of a register-layer operation into the byte-level events the
corresponding C primitive produces.  The `hcan->spi` validity check of
`CAN_Control_Reset` / `_Register_Write` / `_Read` / `_Bit` lives here: on an
unrecognised transport selector the primitive issues no bus traffic (its
trailing 50 µs delay is a separate `RegOp.delay` in every trace). -/
def RegOp.lower (spi : Nat) : RegOp → List SpiEv
  | RegOp.resetIns =>
      if spi = CAN_SPI1 ∨ spi = CAN_SPI2 then
        [SpiEv.csOn, SpiEv.wr RESET_INS, SpiEv.csOff]
      else []
  | RegOp.write a bs =>
      if spi = CAN_SPI1 ∨ spi = CAN_SPI2 then
        [SpiEv.csOn, SpiEv.wr WRITE_INS, SpiEv.wr a] ++ bs.map SpiEv.wr ++ [SpiEv.csOff]
      else []
  | RegOp.readN a n =>
      if spi = CAN_SPI1 ∨ spi = CAN_SPI2 then
        [SpiEv.csOn, SpiEv.wr READ_INS, SpiEv.wr a, SpiEv.rd n, SpiEv.csOff]
      else []
  | RegOp.bitMod a m d =>
      if spi = CAN_SPI1 ∨ spi = CAN_SPI2 then
        [SpiEv.csOn, SpiEv.wr BIT_MODIFY_INS, SpiEv.wr a, SpiEv.wr m, SpiEv.wr d, SpiEv.csOff]
      else []
  | RegOp.delay n => [SpiEv.delay n]
  | RegOp.spiInit k => [SpiEv.spiInit k]

/-- Trace of one `CAN_Control_Register_Write` call (the WRITE transaction
followed by the unconditional 50 µs settling delay). -/
def regWrite (addr : Nat) (bytes : List Nat) : List RegOp :=
  [RegOp.write addr bytes, RegOp.delay 50]

/-- Trace of one `CAN_Control_Register_Read` call. -/
def regRead (addr n : Nat) : List RegOp :=
  [RegOp.readN addr n, RegOp.delay 50]

/-- Trace of one `CAN_Control_Register_Bit` call. -/
def regBit (addr mask data : Nat) : List RegOp :=
  [RegOp.bitMod addr mask data, RegOp.delay 50]

/-- Byte delivered by the SPI read transaction at register address `a`,
as seen in the driver's `spi_read` buffer (the oracle `env` models the
controller's register contents). -/
def readByte (env : Nat → Nat) (a : Nat) : Nat := env a % 256

/-- Bytes delivered by an `n`-byte auto-incrementing read starting at `a`. -/
def readBytes (env : Nat → Nat) (a n : Nat) : List Nat :=
  (List.range n).map (fun i => readByte env (a + i))

/-- Byte landing in a local `uint8_t spi_read` after a
`CAN_Control_Register_Read(hcan, a, &spi_read, 1)` call: on an invalid
transport selector the primitive does nothing and the local stays
uninitialised, modelled as `none`. -/
def readByteOpt (spi : Nat) (env : Nat → Nat) (a : Nat) : Option Nat :=
  if spi = CAN_SPI1 ∨ spi = CAN_SPI2 then some (readByte env a) else none

/-! ## Register-file semantics of a trace (WRITE and BIT-MODIFY effects) -/

/-- Pointwise update of a register file. -/
def regUpdate (f : Nat → Nat) (a v : Nat) : Nat → Nat :=
  fun x => if x = a then v else f x

/-- Effect of a multi-byte WRITE with controller address auto-increment. -/
def writeSeq (f : Nat → Nat) (a : Nat) : List Nat → (Nat → Nat)
  | [] => f
  | b :: bs => writeSeq (regUpdate f a (b % 256)) (a + 1) bs

/-- Effect of one register-layer operation on the controller register file.
Reads and delays change nothing; BIT-MODIFY implements
`reg := (reg AND NOT mask) OR (data AND mask)` on the byte; the RESET
instruction's restoration of datasheet defaults is not modelled (no theorem
below applies a trace containing it). -/
def applyOp (f : Nat → Nat) : RegOp → (Nat → Nat)
  | RegOp.write a bs => writeSeq f a bs
  | RegOp.bitMod a m d =>
      regUpdate f a (((f a % 256) &&& ((m % 256) ^^^ 0xFF)) ||| ((d % 256) &&& (m % 256)))
  | _ => f

/-- Effect of a whole trace on the controller register file. -/
def applyTrace (f : Nat → Nat) (tr : List RegOp) : Nat → Nat :=
  tr.foldl applyOp f

/-! ## Identifier codec

TX-side packing as written inline in `CAN_Control_Send_CAN_Frame` (the same
byte layout is used by `CAN_Control_Set_RX_Mask` / `_Set_RX_Filter`), and
RX-side unpacking as written inline in `CAN_Control_Read_CAN_Frame`.
The `% 256` marks the narrowing `uint32 → uint8` assignments. -/

/-- TXBnSIDH for an extended frame: `txid >> 21` truncated to a byte. -/
def txExtSIDH (id : Nat) : Nat := (id >>> 21) % 256

/-- TXBnSIDL for an extended frame:
`((txid >> 13) & 0xE0) | ((txid >> 16) & 0x03)` with the EXIDE bit set. -/
def txExtSIDL (id : Nat) : Nat :=
  ((id >>> 13) &&& 0xE0) ||| ((id >>> 16) &&& 0x03) ||| EXIDE_MSG_TRANSMIT_EXTENDED_ID

/-- TXBnEID8 for an extended frame: `txid >> 8` truncated to a byte. -/
def txExtEID8 (id : Nat) : Nat := (id >>> 8) % 256

/-- TXBnEID0 for an extended frame: `txid` truncated to a byte. -/
def txExtEID0 (id : Nat) : Nat := id % 256

/-- TXBnSIDH for a standard frame: `txid >> 3` truncated to a byte. -/
def txStdSIDH (id : Nat) : Nat := (id >>> 3) % 256

/-- TXBnSIDL for a standard frame: `txid << 5` truncated to a byte. -/
def txStdSIDL (id : Nat) : Nat := (id <<< 5) % 256

/-- Reassembly of a full (standard + extended) identifier from the four
RXBn ID register bytes, exactly as in `CAN_Control_Read_CAN_Frame`:
`sidh << 21`, `(sidl & 0xE0) << 18`, `(sidl & 0x03) << 16`, `eid8 << 8`,
`eid0`, OR-ed together. -/
def rxDecodeExtId (sidh sidl eid8 eid0 : Nat) : Nat :=
  (sidh <<< 21) ||| ((sidl &&& 0xE0) <<< 18) ||| ((sidl &&& 0x03) <<< 16) |||
    (eid8 <<< 8) ||| eid0

/-- Reassembly of a standard identifier from the SIDH/SIDL bytes:
`(sidh << 3) | (sidl >> 5)`. -/
def rxDecodeStdId (sidh sidl : Nat) : Nat := (sidh <<< 3) ||| (sidl >>> 5)

/-- Four mask/filter ID register bytes written by `CAN_Control_Set_RX_Mask`
(and, before the EXIDE adjustment, by `CAN_Control_Set_RX_Filter`). -/
def maskIdBytes (v : Nat) : List Nat :=
  [(v >>> 21) % 256,
   ((v >>> 13) &&& 0xE0) ||| ((v >>> 16) &&& 0x03),
   (v >>> 8) % 256,
   v % 256]

/-! ## Worst-case on-bus wait times (macros from `can.h`) -/

/-- WAIT_SEND_STANDARD_DATA_FRAME delay argument:
`(8*d + 44 + (33 + 8*d)/4) * (1000000/b)` microseconds. -/
def WAIT_SEND_STANDARD_DATA_FRAME (d b : Nat) : Nat :=
  (8 * d + 44 + (33 + 8 * d) / 4) * (1000000 / b)

/-- WAIT_SEND_EXTENDED_DATA_FRAME delay argument:
`(8*d + 64 + (53 + 8*d)/4) * (1000000/b)` microseconds. -/
def WAIT_SEND_EXTENDED_DATA_FRAME (d b : Nat) : Nat :=
  (8 * d + 64 + (53 + 8 * d) / 4) * (1000000 / b)

/-- WAIT_SEND_STANDARD_REMOTE_FRAME delay argument: `50 * (1000000/b)`. -/
def WAIT_SEND_STANDARD_REMOTE_FRAME (b : Nat) : Nat := 50 * (1000000 / b)

/-- WAIT_SEND_EXTENDED_REMOTE_FRAME delay argument: `73 * (1000000/b)`. -/
def WAIT_SEND_EXTENDED_REMOTE_FRAME (b : Nat) : Nat := 73 * (1000000 / b)

/-- Wait-time dispatch at the end of each TX-buffer block of
`CAN_Control_Send_CAN_Frame`: extended data, else standard data, else
extended remote, else (default) standard remote. -/
def waitOf (ftype d b : Nat) : Nat :=
  if ftype = TX_EXTENDED_DATA_FRAME then WAIT_SEND_EXTENDED_DATA_FRAME d b
  else if ftype = TX_STANDARD_DATA_FRAME then WAIT_SEND_STANDARD_DATA_FRAME d b
  else if ftype = TX_EXTENDED_REMOTE_FRAME then WAIT_SEND_EXTENDED_REMOTE_FRAME b
  else WAIT_SEND_STANDARD_REMOTE_FRAME b

/-! ## Driver functions -/

/-- CAN_Control_Reset: RESET instruction (one CS-framed transaction when the
transport selector is valid, nothing otherwise), 50 µs instruction delay,
then the OST delay; the C stores `GET_OST(OSC1_FREQ)` in a `uint8_t`
local, hence the `% 256`. -/
def CAN_Control_Reset (hcan : CAN_Control_HandleTypeDef) :
    CAN_Control_HandleTypeDef × List RegOp :=
  (hcan,
   (if hcan.spi = CAN_SPI1 ∨ hcan.spi = CAN_SPI2 then [RegOp.resetIns] else []) ++
     [RegOp.delay 50, RegOp.delay (GET_OST OSC1_FREQ % 256)])

/-- CAN_Control_Set_Op_Mode: one CANCTRL write combining the requested
REQOP field with the handle's one-shot bit; unknown modes fall through the
switch and write nothing. -/
def CAN_Control_Set_Op_Mode (hcan : CAN_Control_HandleTypeDef) (opmode : Nat) :
    CAN_Control_HandleTypeDef × List RegOp :=
  (hcan,
   if opmode = NORMAL_OP_MODE then
     regWrite CANCTRL_REG [hcan.oneshot ||| REQOP_NORMAL_MODE]
   else if opmode = SLEEP_OP_MODE then
     regWrite CANCTRL_REG [hcan.oneshot ||| REQOP_SLEEP_MODE]
   else if opmode = LOOPBACK_OP_MODE then
     regWrite CANCTRL_REG [hcan.oneshot ||| REQOP_LOOPBACK_MODE]
   else if opmode = LISTEN_ONLY_OP_MODE then
     regWrite CANCTRL_REG [hcan.oneshot ||| REQOP_LISTEN_MODE]
   else if opmode = CONFIGURATION_OP_MODE then
     regWrite CANCTRL_REG [hcan.oneshot ||| REQOP_CONFIGURATION_MODE]
   else [])

/-- CAN_Control_Set_Baud_Rate: per supported rate, one three-byte write
{CNF3, CNF2, CNF1} starting at CNF3; unknown rates write nothing. -/
def CAN_Control_Set_Baud_Rate (hcan : CAN_Control_HandleTypeDef) (baudrate : Nat) :
    CAN_Control_HandleTypeDef × List RegOp :=
  (hcan,
   if baudrate = CAN_BAUD_500_KBPS then
     regWrite CNF3_REG
       [hcan.wakeupfilter ||| PHSEG2_3TQ,
        BTLMODE_PS2_PHSEG2_CNF3 ||| hcan.samplepoint ||| PHSEG1_2TQ ||| PRSEG_2TQ,
        SJW_1TQ]
   else if baudrate = CAN_BAUD_250_KBPS then
     regWrite CNF3_REG
       [hcan.wakeupfilter ||| PHSEG2_6TQ,
        BTLMODE_PS2_PHSEG2_CNF3 ||| hcan.samplepoint ||| PHSEG1_5TQ ||| PRSEG_4TQ,
        SJW_1TQ]
   else if baudrate = CAN_BAUD_125_KBPS then
     regWrite CNF3_REG
       [hcan.wakeupfilter ||| PHSEG2_6TQ,
        BTLMODE_PS2_PHSEG2_CNF3 ||| hcan.samplepoint ||| PHSEG1_6TQ ||| PRSEG_3TQ,
        SJW_1TQ ||| BRP_BIT_0]
   else if baudrate = CAN_BAUD_100_KBPS then
     regWrite CNF3_REG
       [hcan.wakeupfilter ||| PHSEG2_7TQ,
        BTLMODE_PS2_PHSEG2_CNF3 ||| hcan.samplepoint ||| PHSEG1_6TQ ||| PRSEG_6TQ,
        SJW_1TQ ||| BRP_BIT_0]
   else if baudrate = CAN_BAUD_50_KBPS then
     regWrite CNF3_REG
       [hcan.wakeupfilter ||| PHSEG2_7TQ,
        BTLMODE_PS2_PHSEG2_CNF3 ||| hcan.samplepoint ||| PHSEG1_6TQ ||| PRSEG_6TQ,
        SJW_1TQ ||| BRP_BIT_1 ||| BRP_BIT_0]
   else [])

/-- CAN_Control_Set_RX_Mask: for each selected mask, one four-byte write of
the packed mask value starting at RXMnSIDH. -/
def CAN_Control_Set_RX_Mask (hcan : CAN_Control_HandleTypeDef)
    (hmask : CAN_Control_RX_Mask) : CAN_Control_HandleTypeDef × List RegOp :=
  (hcan,
   (if hmask.rxmasknmbr &&& RXM0 = RXM0 then
      regWrite RXM0SIDH_REG (maskIdBytes (hmask.rxmaskvalue 0))
    else []) ++
   (if hmask.rxmasknmbr &&& RXM1 = RXM1 then
      regWrite RXM1SIDH_REG (maskIdBytes (hmask.rxmaskvalue 1))
    else []))

/-- RXFnSIDH register address for filter ordinal `n`. -/
def rxfnSIDH : Nat → Nat
  | 0 => RXF0SIDH_REG
  | 1 => RXF1SIDH_REG
  | 2 => RXF2SIDH_REG
  | 3 => RXF3SIDH_REG
  | 4 => RXF4SIDH_REG
  | _ => RXF5SIDH_REG

/-- Selection bit (RXFn) for filter ordinal `n`; the same bit selects the
per-filter extended-ID enable in `extendedidenable`. -/
def rxfnBit : Nat → Nat
  | 0 => RXF0
  | 1 => RXF1
  | 2 => RXF2
  | 3 => RXF3
  | 4 => RXF4
  | _ => RXF5

/-- Four filter ID register bytes for filter `n` of
`CAN_Control_Set_RX_Filter`: the packed value with EXIDE OR-ed into the
SIDL byte when the filter's extended-ID enable bit is set. -/
def filterIdBytes (hfilter : CAN_Control_RX_Filter) (n : Nat) : List Nat :=
  [(hfilter.rxfiltervalue n >>> 21) % 256,
   ((hfilter.rxfiltervalue n >>> 13) &&& 0xE0) |||
     ((hfilter.rxfiltervalue n >>> 16) &&& 0x03) |||
     (if hfilter.extendedidenable &&& rxfnBit n = rxfnBit n then
        EXIDE_FILTER_APPLY_ONLY_EXTENDED_FRAMES
      else 0),
   (hfilter.rxfiltervalue n >>> 8) % 256,
   hfilter.rxfiltervalue n % 256]

/-- One filter block of `CAN_Control_Set_RX_Filter`: nothing unless the
filter is selected. -/
def filterBlock (hfilter : CAN_Control_RX_Filter) (n : Nat) : List RegOp :=
  if hfilter.rxfilternmbr &&& rxfnBit n = rxfnBit n then
    regWrite (rxfnSIDH n) (filterIdBytes hfilter n)
  else []

/-- CAN_Control_Set_RX_Filter: the six per-filter blocks in order. -/
def CAN_Control_Set_RX_Filter (hcan : CAN_Control_HandleTypeDef)
    (hfilter : CAN_Control_RX_Filter) : CAN_Control_HandleTypeDef × List RegOp :=
  (hcan,
   filterBlock hfilter 0 ++ filterBlock hfilter 1 ++ filterBlock hfilter 2 ++
     filterBlock hfilter 3 ++ filterBlock hfilter 4 ++ filterBlock hfilter 5)

/-- CAN_Control_Init: guarded by transport-selector validity; SPI bring-up,
reset, baud-rate programming, optional RXB0CTRL/RXB1CTRL writes, and the
operation-mode commit.  `rxb0ctrlByte` is the `spi_write` value accumulated
with `|=` in the source. -/
def rxb0ctrlByte (hcan : CAN_Control_HandleTypeDef) : Nat :=
  (if hcan.rxbufferopmode &&& RXB0_TURN_MASKS_FILTERS_OFF = RXB0_TURN_MASKS_FILTERS_OFF
   then RXM_RECEIVE_ANY_MESSAGE else 0) |||
  (if hcan.rxbuffer0rollover &&& RXB0_ROLLOVER_ENABLED = RXB0_ROLLOVER_ENABLED
   then BUKT_RXB0_ROLLOVER_ENABLED else 0)

/-- CAN_Control_Init (see `rxb0ctrlByte` above for the RXB0CTRL value). -/
def CAN_Control_Init (hcan : CAN_Control_HandleTypeDef) :
    CAN_Control_HandleTypeDef × List RegOp :=
  (hcan,
   if hcan.spi = CAN_SPI1 ∨ hcan.spi = CAN_SPI2 then
     [RegOp.spiInit hcan.spi] ++
       (CAN_Control_Reset hcan).2 ++
       (CAN_Control_Set_Baud_Rate hcan hcan.baudrate).2 ++
       (if rxb0ctrlByte hcan ≠ 0 then regWrite RXB0CTRL_REG [rxb0ctrlByte hcan] else []) ++
       (if hcan.rxbufferopmode &&& RXB1_TURN_MASKS_FILTERS_OFF = RXB1_TURN_MASKS_FILTERS_OFF
        then regWrite RXB1CTRL_REG [RXM_RECEIVE_ANY_MESSAGE] else []) ++
       (CAN_Control_Set_Op_Mode hcan hcan.opmode).2
   else [])

/-! ## Frame transmitter

`CAN_Control_Send_CAN_Frame` repeats one block per TX buffer (TXB0, TXB1,
TXB2) with only the buffer-specific register addresses, selection bit and
array index changing; the block is factored into `sendBuffer` over the
buffer ordinal `n ∈ {0,1,2}`. -/

/-- Selection bit (TXBn mask) for TX buffer ordinal `n`. -/
def txbBit : Nat → Nat
  | 0 => TXB0
  | 1 => TXB1
  | _ => TXB2

/-- TXBnCTRL register address for TX buffer ordinal `n`. -/
def txbnCTRLreg : Nat → Nat
  | 0 => TXB0CTRL_REG
  | 1 => TXB1CTRL_REG
  | _ => TXB2CTRL_REG

/-- TXBnSIDH register address for TX buffer ordinal `n`. -/
def txbnSIDHreg : Nat → Nat
  | 0 => TXB0SIDH_REG
  | 1 => TXB1SIDH_REG
  | _ => TXB2SIDH_REG

/-- TXBnD0 register address for TX buffer ordinal `n`. -/
def txbnD0reg : Nat → Nat
  | 0 => TXB0D0_REG
  | 1 => TXB1D0_REG
  | _ => TXB2D0_REG

/-- Four TXBn ID register bytes for buffer `n`: the full packed layout with
EXIDE for extended frames (data or remote), the standard layout with
EID8 = EID0 = 0 otherwise. -/
def txIdBytes (txcan : CAN_Control_TX) (n : Nat) : List Nat :=
  if txcan.txframetype n = TX_EXTENDED_DATA_FRAME ∨
      txcan.txframetype n = TX_EXTENDED_REMOTE_FRAME then
    [txExtSIDH (txcan.txid n), txExtSIDL (txcan.txid n),
     txExtEID8 (txcan.txid n), txExtEID0 (txcan.txid n)]
  else
    [txStdSIDH (txcan.txid n), txStdSIDL (txcan.txid n), 0, 0]

/-- TXBnDLC byte for buffer `n`: the data length with the RTR bit OR-ed in
for remote frames. -/
def txDlcByte (txcan : CAN_Control_TX) (n : Nat) : Nat :=
  if txcan.txframetype n = TX_STANDARD_REMOTE_FRAME ∨
      txcan.txframetype n = TX_EXTENDED_REMOTE_FRAME then
    txcan.datalength n ||| RTR_TRANSMIT_REMOTE_FRAME_REQUEST
  else
    txcan.datalength n

/-- Data bytes written to TXBnD0... for buffer `n`: the first
`datalength[n]` entries of `data[n]` (an out-of-range length makes the C
read past the 8-byte array; the model reads the total function). -/
def txDataBytes (txcan : CAN_Control_TX) (n : Nat) : List Nat :=
  (List.range (txcan.datalength n)).map (fun i => txcan.data n i % 256)

/-- ID/DLC/data writes of one TX-buffer block: the five-byte burst at
TXBnSIDH always, plus the data-register write for data frames only. -/
def sendBufferHead (txcan : CAN_Control_TX) (n : Nat) : List RegOp :=
  if txcan.txframetype n = TX_STANDARD_REMOTE_FRAME ∨
      txcan.txframetype n = TX_EXTENDED_REMOTE_FRAME then
    regWrite (txbnSIDHreg n) (txIdBytes txcan n ++ [txDlcByte txcan n])
  else
    regWrite (txbnSIDHreg n) (txIdBytes txcan n ++ [txDlcByte txcan n]) ++
      regWrite (txbnD0reg n) (txDataBytes txcan n)

/-- One full TX-buffer block: ID/DLC/data writes, the one-byte write of
TXREQ_PENDING to TXBnCTRL, and the worst-case on-bus wait. -/
def sendBuffer (hcan : CAN_Control_HandleTypeDef) (txcan : CAN_Control_TX)
    (n : Nat) : List RegOp :=
  sendBufferHead txcan n ++
    (regWrite (txbnCTRLreg n) [TXREQ_PENDING] ++
      [RegOp.delay (waitOf (txcan.txframetype n) (txcan.datalength n) hcan.baudrate)])

/-- CAN_Control_Send_CAN_Frame: the three buffer blocks in fixed order,
each present only when its selection bit is set. -/
def CAN_Control_Send_CAN_Frame (hcan : CAN_Control_HandleTypeDef)
    (txcan : CAN_Control_TX) : CAN_Control_HandleTypeDef × List RegOp :=
  (hcan,
   (if txcan.txbuffernmbr &&& TXB0 = TXB0 then sendBuffer hcan txcan 0 else []) ++
   (if txcan.txbuffernmbr &&& TXB1 = TXB1 then sendBuffer hcan txcan 1 else []) ++
   (if txcan.txbuffernmbr &&& TXB2 = TXB2 then sendBuffer hcan txcan 2 else []))

/-! ## Frame receiver -/

/-- RXB0 block of `CAN_Control_Read_CAN_Frame`, operating on the six bytes
read from RXB0CTRL..RXB0DLC (delivered by `env`); returns the updated
descriptor and the trace of the data-register read the block performs
after the initial six-byte read. -/
def readRXB0 (rxcan : CAN_Control_RX) (env : Nat → Nat) :
    CAN_Control_RX × List RegOp :=
  let b0 := readByte env RXB0CTRL_REG
  let b1 := readByte env RXB0SIDH_REG
  let b2 := readByte env RXB0SIDL_REG
  let b3 := readByte env RXB0EID8_REG
  let b4 := readByte env RXB0EID0_REG
  let b5 := readByte env RXB0DLC_REG
  let dlc := b5 &&& DLC_MASK
  let rx1 := { rxcan with accfilter0 := b0 &&& FILHIT_BIT_0, datalength0 := dlc }
  if b2 &&& IDE_RECEIVED_EXTENDED_FRAME = IDE_RECEIVED_EXTENDED_FRAME then
    let rx2 := { rx1 with rxid0 := rxDecodeExtId b1 b2 b3 b4 }
    if b5 &&& RTR_RECEIVED_REMOTE_FRAME_REQUEST = RTR_RECEIVED_REMOTE_FRAME_REQUEST then
      ({ rx2 with rxframetype0 := RX_EXTENDED_REMOTE_FRAME }, [])
    else
      let rx3 := { rx2 with rxframetype0 := RX_EXTENDED_DATA_FRAME }
      if ROLLOVER_ACCEPTANCE_FILTER_0 ≤
          (b0 &&& (BUKT_RXB0_ROLLOVER_ENABLED ||| BUKT1_RXB0_ROLLOVER_ENABLED ||| FILHIT_BIT_0)) then
        ({ rx3 with rolloverstatus := ROLLOVER_OCCURRED,
                    data0 := readBytes env RXB1D0_REG dlc },
         regRead RXB1D0_REG dlc)
      else
        ({ rx3 with rolloverstatus := ROLLOVER_NOT_OCCURRED,
                    data0 := readBytes env RXB0D0_REG dlc },
         regRead RXB0D0_REG dlc)
  else
    let rx2 := { rx1 with rxid0 := rxDecodeStdId b1 b2 }
    if b2 &&& SRR_RECEIVED_STANDARD_REMOTE_REQUEST = SRR_RECEIVED_STANDARD_REMOTE_REQUEST then
      ({ rx2 with rxframetype0 := RX_STANDARD_REMOTE_FRAME }, [])
    else
      let rx3 := { rx2 with rxframetype0 := RX_STANDARD_DATA_FRAME }
      if ROLLOVER_ACCEPTANCE_FILTER_0 ≤
          (b0 &&& (BUKT_RXB0_ROLLOVER_ENABLED ||| BUKT1_RXB0_ROLLOVER_ENABLED ||| FILHIT_BIT_0)) then
        ({ rx3 with rolloverstatus := ROLLOVER_OCCURRED,
                    data0 := readBytes env RXB1D0_REG dlc },
         regRead RXB1D0_REG dlc)
      else
        ({ rx3 with rolloverstatus := ROLLOVER_NOT_OCCURRED,
                    data0 := readBytes env RXB0D0_REG dlc },
         regRead RXB0D0_REG dlc)

/-- RXB1 block of `CAN_Control_Read_CAN_Frame`: like `readRXB0` but with
the three-bit FILHIT field, no rollover case, and the standard-data read
starting at RXB1D1 (extended-data read starts at RXB1D0). -/
def readRXB1 (rxcan : CAN_Control_RX) (env : Nat → Nat) :
    CAN_Control_RX × List RegOp :=
  let b0 := readByte env RXB1CTRL_REG
  let b1 := readByte env RXB1SIDH_REG
  let b2 := readByte env RXB1SIDL_REG
  let b3 := readByte env RXB1EID8_REG
  let b4 := readByte env RXB1EID0_REG
  let b5 := readByte env RXB1DLC_REG
  let dlc := b5 &&& DLC_MASK
  let rx1 := { rxcan with
                 accfilter1 := b0 &&& (FILHIT_BIT_2 ||| FILHIT_BIT_1 ||| FILHIT_BIT_0),
                 datalength1 := dlc }
  if b2 &&& IDE_RECEIVED_EXTENDED_FRAME = IDE_RECEIVED_EXTENDED_FRAME then
    let rx2 := { rx1 with rxid1 := rxDecodeExtId b1 b2 b3 b4 }
    if b5 &&& RTR_RECEIVED_REMOTE_FRAME_REQUEST = RTR_RECEIVED_REMOTE_FRAME_REQUEST then
      ({ rx2 with rxframetype1 := RX_EXTENDED_REMOTE_FRAME }, [])
    else
      ({ rx2 with rxframetype1 := RX_EXTENDED_DATA_FRAME,
                  data1 := readBytes env RXB1D0_REG dlc },
       regRead RXB1D0_REG dlc)
  else
    let rx2 := { rx1 with rxid1 := rxDecodeStdId b1 b2 }
    if b2 &&& SRR_RECEIVED_STANDARD_REMOTE_REQUEST = SRR_RECEIVED_STANDARD_REMOTE_REQUEST then
      ({ rx2 with rxframetype1 := RX_STANDARD_REMOTE_FRAME }, [])
    else
      ({ rx2 with rxframetype1 := RX_STANDARD_DATA_FRAME,
                  data1 := readBytes env RXB1D1_REG dlc },
       regRead RXB1D1_REG dlc)

/-- CAN_Control_Read_CAN_Frame: per selected RX buffer, the six-byte read
starting at RXBnCTRL followed by that buffer's block.  The RXB1 guard
tests `rxcan->rxbuffernmbr`, which the RXB0 block never assigns, so it is
read from the input descriptor. -/
def CAN_Control_Read_CAN_Frame (hcan : CAN_Control_HandleTypeDef)
    (rxcan : CAN_Control_RX) (env : Nat → Nat) :
    CAN_Control_HandleTypeDef × (CAN_Control_RX × List RegOp) :=
  (hcan,
   let step0 :=
     if rxcan.rxbuffernmbr &&& RXB0 = RXB0 then
       let r := readRXB0 rxcan env
       (r.1, regRead RXB0CTRL_REG 6 ++ r.2)
     else (rxcan, [])
   let step1 :=
     if rxcan.rxbuffernmbr &&& RXB1 = RXB1 then
       let r := readRXB1 step0.1 env
       (r.1, regRead RXB1CTRL_REG 6 ++ r.2)
     else (step0.1, [])
   (step1.1, step0.2 ++ step1.2))

/-! ## TX status, abort, interrupt and error facade -/

/-- TXBnCTRL register address read by the switch in
`CAN_Control_TX_CAN_Status`; `none` for the selector values (0x00, 0x03)
that reach the switch default and leave `spi_read` uninitialised. -/
def statusReadAddr (tx_buffer : Nat) : Option Nat :=
  if tx_buffer = TXB0 then some TXB0CTRL_REG
  else if tx_buffer = TXB1 then some TXB1CTRL_REG
  else if tx_buffer = TXB2 then some TXB2CTRL_REG
  else none

/-- Decode of a TXBnCTRL byte by `CAN_Control_TX_CAN_Status`: the
TXREQ-and-not-ABTF branch with its nested TXERR/MLOA cases first, then the
ABTF branch, else success. -/
def txStatusDecode (r : Nat) : Nat :=
  if r &&& TXREQ_PENDING = TXREQ_PENDING ∧
      r &&& ABTF_MESSAGE_ABORTED = ABTF_TRANSMISSION_COMPLETE then
    if r &&& (TXERR_BUS_ERROR ||| MLOA_LOST_ARBITRATION) =
        (TXERR_BUS_ERROR ||| MLOA_LOST_ARBITRATION) then
      TX_BUS_ERROR_AND_LOST_ARBITRATION
    else if r &&& TXERR_BUS_ERROR = TXERR_BUS_ERROR then TX_BUS_ERROR
    else if r &&& MLOA_LOST_ARBITRATION = MLOA_LOST_ARBITRATION then TX_LOST_ARBITRATION
    else TX_PENDING
  else if r &&& ABTF_MESSAGE_ABORTED = ABTF_MESSAGE_ABORTED then TX_ABORTED
  else TX_SUCCESS

/-- CAN_Control_TX_CAN_Status: guarded by `tx_buffer <= TXB2`; the selected
TXBnCTRL byte is decoded when a switch case read it (`readByteOpt` is
`none` when the transport selector is invalid and `spi_read` therefore
stays uninitialised); result `none` stands for the value decoded from an
uninitialised local. -/
def CAN_Control_TX_CAN_Status (hcan : CAN_Control_HandleTypeDef)
    (tx_buffer : Nat) (env : Nat → Nat) :
    CAN_Control_HandleTypeDef × (List RegOp × Option Nat) :=
  (hcan,
   if tx_buffer ≤ TXB2 then
     match statusReadAddr tx_buffer with
     | some a => (regRead a 1, (readByteOpt hcan.spi env a).map txStatusDecode)
     | none => ([], none)
   else ([], some TX_PENDING))

/-- CAN_Control_TX_CAN_Abort: per selected buffer, a bit-modify clearing
TXREQ in TXBnCTRL. -/
def CAN_Control_TX_CAN_Abort (hcan : CAN_Control_HandleTypeDef)
    (tx_buffer : Nat) : CAN_Control_HandleTypeDef × List RegOp :=
  (hcan,
   (if tx_buffer &&& TXB0 = TXB0 then
      regBit TXB0CTRL_REG TXREQ_PENDING TXREQ_NO_PENDING else []) ++
   (if tx_buffer &&& TXB1 = TXB1 then
      regBit TXB1CTRL_REG TXREQ_PENDING TXREQ_NO_PENDING else []) ++
   (if tx_buffer &&& TXB2 = TXB2 then
      regBit TXB2CTRL_REG TXREQ_PENDING TXREQ_NO_PENDING else []))

/-- CAN_Control_TX_CAN_Abort_All: set then clear ABAT in CANCTRL. -/
def CAN_Control_TX_CAN_Abort_All (hcan : CAN_Control_HandleTypeDef) :
    CAN_Control_HandleTypeDef × List RegOp :=
  (hcan,
   regBit CANCTRL_REG ABAT_REQ_ABORT_TX ABAT_REQ_ABORT_TX ++
     regBit CANCTRL_REG ABAT_REQ_ABORT_TX ABAT_TERMINATE_REQ_ABORT_TX)

/-- CAN_Control_Enable_INT: one-byte write of the mask to CANINTE. -/
def CAN_Control_Enable_INT (hcan : CAN_Control_HandleTypeDef)
    (interrupts : Nat) : CAN_Control_HandleTypeDef × List RegOp :=
  (hcan, regWrite CANINTE_REG [interrupts])

/-- CAN_Control_INT_Status: one-byte read of CANINTF. -/
def CAN_Control_INT_Status (hcan : CAN_Control_HandleTypeDef)
    (env : Nat → Nat) : CAN_Control_HandleTypeDef × (List RegOp × Option Nat) :=
  (hcan, (regRead CANINTF_REG 1, readByteOpt hcan.spi env CANINTF_REG))

/-- CAN_Control_Clear_INT_Status: bit-modify CANINTF, zeroing the selected
flags. -/
def CAN_Control_Clear_INT_Status (hcan : CAN_Control_HandleTypeDef)
    (interrupts : Nat) : CAN_Control_HandleTypeDef × List RegOp :=
  (hcan, regBit CANINTF_REG interrupts 0)

/-- CAN_Control_ERR_Status: one-byte read of EFLG. -/
def CAN_Control_ERR_Status (hcan : CAN_Control_HandleTypeDef)
    (env : Nat → Nat) : CAN_Control_HandleTypeDef × (List RegOp × Option Nat) :=
  (hcan, (regRead EFLG_REG 1, readByteOpt hcan.spi env EFLG_REG))

/-- CAN_Control_Clear_ERR_Status: bit-modify EFLG, zeroing the selected
flags. -/
def CAN_Control_Clear_ERR_Status (hcan : CAN_Control_HandleTypeDef)
    (errors : Nat) : CAN_Control_HandleTypeDef × List RegOp :=
  (hcan, regBit EFLG_REG errors 0)

/-! ## Specification-side definitions (for refinement-style comparisons) -/

/-- TX-state decode exactly as the specification words it: ABTF=1 yields
aborted; TXREQ=1 with ABTF=0 yields the combined case when both TXERR and
MLOA are set (checked before the single-flag cases), then bus error, then
lost arbitration, else pending; every other case is success. -/
def txStatusSpec (r : Nat) : Nat :=
  if r &&& ABTF_MESSAGE_ABORTED = ABTF_MESSAGE_ABORTED then TX_ABORTED
  else if r &&& TXREQ_PENDING = TXREQ_PENDING then
    if r &&& TXERR_BUS_ERROR = TXERR_BUS_ERROR ∧
        r &&& MLOA_LOST_ARBITRATION = MLOA_LOST_ARBITRATION then
      TX_BUS_ERROR_AND_LOST_ARBITRATION
    else if r &&& TXERR_BUS_ERROR = TXERR_BUS_ERROR then TX_BUS_ERROR
    else if r &&& MLOA_LOST_ARBITRATION = MLOA_LOST_ARBITRATION then TX_LOST_ARBITRATION
    else TX_PENDING
  else TX_SUCCESS

/-- CNF1 encoding from the planner-table parameters: SJW in bits 7:6
(stored as SJW−1), BRP in bits 5:0. -/
def cnf1enc (sjw brp : Nat) : Nat := ((sjw - 1) <<< 6) ||| brp

/-- CNF2 encoding: BTLMODE=1 in bit 7, the sample-point selector in bit 6,
PS1−1 in bits 5:3, PropSeg−1 in bits 2:0. -/
def cnf2enc (sam ps1 propseg : Nat) : Nat :=
  BTLMODE_PS2_PHSEG2_CNF3 ||| sam ||| ((ps1 - 1) <<< 3) ||| (propseg - 1)

/-- CNF3 encoding: the wake-up-filter bit OR-ed with PS2−1 in bits 2:0. -/
def cnf3enc (wakfil ps2 : Nat) : Nat := wakfil ||| (ps2 - 1)

/-! ## Concrete inputs used by witnesses and counterexamples -/

/-- Handle on SPI1 at 500 kbit/s with every optional feature off. -/
def h0 : CAN_Control_HandleTypeDef :=
  { spi := CAN_SPI1, opmode := NORMAL_OP_MODE, oneshot := 0, samplepoint := 0,
    wakeupfilter := 0, rxbufferopmode := 0, rxbuffer0rollover := 0,
    baudrate := CAN_BAUD_500_KBPS }

/-- Handle with an unrecognised transport selector. -/
def hBadSpi : CAN_Control_HandleTypeDef := { h0 with spi := 5 }

/-- TX descriptor: TXB0 selected, standard data frame, DLC 0, ID 0. -/
def txStd0 : CAN_Control_TX :=
  { txbuffernmbr := TXB0, txframetype := fun _ => TX_STANDARD_DATA_FRAME,
    datalength := fun _ => 0, data := fun _ _ => 0, txid := fun _ => 0 }

/-- TX descriptor: TXB0 selected, standard data frame with out-of-range
DLC 9. -/
def tx9 : CAN_Control_TX :=
  { txbuffernmbr := TXB0, txframetype := fun _ => TX_STANDARD_DATA_FRAME,
    datalength := fun _ => 9, data := fun _ _ => 0, txid := fun _ => 0 }

/-- RX descriptor selecting RXB1 only. -/
def rxSel1 : CAN_Control_RX :=
  { rxbuffernmbr := RXB1, rxframetype0 := 0, rxframetype1 := 0,
    datalength0 := 0, datalength1 := 0, accfilter0 := 0, accfilter1 := 0,
    rolloverstatus := 0, data0 := [], data1 := [], rxid0 := 0, rxid1 := 0 }

/-- Register oracle answering zero everywhere. -/
def envZero : Nat → Nat := fun _ => 0

/-- Register oracle: RXB1SIDL carries the IDE bit, all other registers are
zero (so RXB1 holds an extended data frame of DLC 0). -/
def envRXB1ext : Nat → Nat := fun a => if a = RXB1SIDL_REG then 0x08 else 0

/-- Register file with the TXP priority bits set in TXB0CTRL and all other
registers zero. -/
def regsTXP : Nat → Nat := fun a => if a = TXB0CTRL_REG then 0x03 else 0

/-! ## Helper lemmas -/

set_option maxRecDepth 8000 in
/-- On every byte, the source's TXBnCTRL decode agrees with the decode as
the specification words it. -/
theorem txStatusDecode_eq_spec : ∀ r, r < 256 → txStatusDecode r = txStatusSpec r := by
  decide

/-- No `CAN_Control_Register_Write` trace contains a BIT-MODIFY. -/
theorem bitMod_not_mem_regWrite (a m d x : Nat) (bs : List Nat) :
    RegOp.bitMod a m d ∉ regWrite x bs := by
  simp [regWrite]

/-- No TX-buffer block of the transmitter contains a BIT-MODIFY. -/
theorem bitMod_not_mem_sendBuffer (hcan : CAN_Control_HandleTypeDef)
    (txcan : CAN_Control_TX) (n a m d : Nat) :
    RegOp.bitMod a m d ∉ sendBuffer hcan txcan n := by
  unfold sendBuffer sendBufferHead
  split <;> simp [regWrite]

/-- No guarded TX-buffer block contains a BIT-MODIFY. -/
theorem bitMod_not_mem_sendIf (hcan : CAN_Control_HandleTypeDef)
    (txcan : CAN_Control_TX) (c : Prop) [Decidable c] (k a m d : Nat) :
    RegOp.bitMod a m d ∉ (if c then sendBuffer hcan txcan k else []) := by
  split
  · exact bitMod_not_mem_sendBuffer _ _ _ _ _ _
  · simp

/-- The transmitter's whole trace contains no BIT-MODIFY operation. -/
theorem bitMod_not_mem_send (hcan : CAN_Control_HandleTypeDef)
    (txcan : CAN_Control_TX) (a m d : Nat) :
    RegOp.bitMod a m d ∉ (CAN_Control_Send_CAN_Frame hcan txcan).2 := by
  intro hmem
  rcases List.mem_append.mp hmem with hmem01 | h2
  · rcases List.mem_append.mp hmem01 with h0 | h1
    · exact bitMod_not_mem_sendIf hcan txcan _ 0 a m d h0
    · exact bitMod_not_mem_sendIf hcan txcan _ 1 a m d h1
  · exact bitMod_not_mem_sendIf hcan txcan _ 2 a m d h2

/-- Decomposition of the transmitter trace around the TXREQ request and the
worst-case wait of a selected buffer. -/
theorem send_trace_decomp (hcan : CAN_Control_HandleTypeDef)
    (txcan : CAN_Control_TX) (n : Nat) (hn : n < 3)
    (hsel : txcan.txbuffernmbr &&& txbBit n = txbBit n) :
    ∃ pre suf, (CAN_Control_Send_CAN_Frame hcan txcan).2 =
      pre ++ [RegOp.write (txbnCTRLreg n) [TXREQ_PENDING], RegOp.delay 50,
              RegOp.delay (waitOf (txcan.txframetype n) (txcan.datalength n) hcan.baudrate)] ++ suf := by
  have hbuf : ∀ m, sendBuffer hcan txcan m =
      sendBufferHead txcan m ++
        [RegOp.write (txbnCTRLreg m) [TXREQ_PENDING], RegOp.delay 50,
         RegOp.delay (waitOf (txcan.txframetype m) (txcan.datalength m) hcan.baudrate)] :=
    fun m => rfl
  interval_cases n
  · simp only [txbBit] at hsel
    refine ⟨sendBufferHead txcan 0,
      (if txcan.txbuffernmbr &&& TXB1 = TXB1 then sendBuffer hcan txcan 1 else []) ++
        (if txcan.txbuffernmbr &&& TXB2 = TXB2 then sendBuffer hcan txcan 2 else []), ?_⟩
    simp only [CAN_Control_Send_CAN_Frame]
    rw [if_pos hsel, hbuf 0]
    simp [List.append_assoc]
  · simp only [txbBit] at hsel
    refine ⟨(if txcan.txbuffernmbr &&& TXB0 = TXB0 then sendBuffer hcan txcan 0 else []) ++
        sendBufferHead txcan 1,
      (if txcan.txbuffernmbr &&& TXB2 = TXB2 then sendBuffer hcan txcan 2 else []), ?_⟩
    simp only [CAN_Control_Send_CAN_Frame]
    rw [if_pos hsel, hbuf 1]
    simp [List.append_assoc]
  · simp only [txbBit] at hsel
    refine ⟨(if txcan.txbuffernmbr &&& TXB0 = TXB0 then sendBuffer hcan txcan 0 else []) ++
        ((if txcan.txbuffernmbr &&& TXB1 = TXB1 then sendBuffer hcan txcan 1 else []) ++
          sendBufferHead txcan 2),
      [], ?_⟩
    simp only [CAN_Control_Send_CAN_Frame]
    rw [if_pos hsel, hbuf 2]
    simp [List.append_assoc]

/-! ## Claim theorems -/

/-- C1: the claim states the TX-side packing and RX-side unpacking are
exact inverses for every identifier in range.  The code violates this: for
the extended identifier 0x40000 (bit 18 set, well inside the 29-bit
range), decoding the four ID register bytes produced by the encoder yields
0x800000, not 0x40000 — the decoder shifts the SIDL[7:5] field left by 18
(landing at ID bits 25:23) where the encoder placed ID bits 20:18 via a
right-shift of 13. -/
theorem claim_C1_roundtrip_bug :
    rxDecodeExtId (txExtSIDH 0x40000) (txExtSIDL 0x40000)
        (txExtEID8 0x40000) (txExtEID0 0x40000) = 0x800000 ∧
      (0x800000 : Nat) ≠ 0x40000 := by
  decide

/-- On a valid transport and a valid buffer selector, the status query
reads a TXBnCTRL address and returns the decode of its byte, which agrees
with the decode as the specification words it. -/
theorem tx_status_decode_spec (hcan : CAN_Control_HandleTypeDef)
    (env : Nat → Nat) (b : Nat)
    (hspi : hcan.spi = CAN_SPI1 ∨ hcan.spi = CAN_SPI2)
    (hb : b = TXB0 ∨ b = TXB1 ∨ b = TXB2) :
    ∃ a, statusReadAddr b = some a ∧
      (CAN_Control_TX_CAN_Status hcan b env).2.2 =
        some (txStatusSpec (readByte env a)) := by
  have hlt : ∀ a, readByte env a < 256 := fun a => Nat.mod_lt _ (by norm_num)
  rcases hb with rfl | rfl | rfl
  · refine ⟨TXB0CTRL_REG, by simp [statusReadAddr], ?_⟩
    simp [CAN_Control_TX_CAN_Status, statusReadAddr, readByteOpt, hspi, TXB0, TXB2,
      txStatusDecode_eq_spec _ (hlt TXB0CTRL_REG)]
  · refine ⟨TXB1CTRL_REG, by simp [statusReadAddr, TXB0, TXB1], ?_⟩
    simp [CAN_Control_TX_CAN_Status, statusReadAddr, readByteOpt, hspi, TXB0, TXB1, TXB2,
      txStatusDecode_eq_spec _ (hlt TXB1CTRL_REG)]
  · refine ⟨TXB2CTRL_REG, by simp [statusReadAddr, TXB0, TXB1, TXB2], ?_⟩
    simp [CAN_Control_TX_CAN_Status, statusReadAddr, readByteOpt, hspi, TXB0, TXB1, TXB2,
      txStatusDecode_eq_spec _ (hlt TXB2CTRL_REG)]

/-- C2: with a valid transport and a valid buffer selector (TXB0, TXB1 or
TXB2), `CAN_Control_TX_CAN_Status` decodes the TXBnCTRL byte exactly as
the specification words it (`txStatusSpec`): ABTF=1 is aborted; TXREQ=1
with ABTF=0 is the combined TXERR-and-MLOA case first, then bus error,
then lost arbitration, else pending; every other case is success. -/
theorem claim_C2_tx_status_decode (hcan : CAN_Control_HandleTypeDef)
    (env : Nat → Nat) (b : Nat)
    (hspi : hcan.spi = CAN_SPI1 ∨ hcan.spi = CAN_SPI2)
    (hb : b = TXB0 ∨ b = TXB1 ∨ b = TXB2) :
    ∃ a, statusReadAddr b = some a ∧
      (CAN_Control_TX_CAN_Status hcan b env).2.2 =
        some (txStatusSpec (readByte env a)) :=
  tx_status_decode_spec hcan env b hspi hb

/-- C2 witness: on the valid handle `h0`, buffer TXB0 and the all-zero
register oracle, the status decode is the specified one. -/
theorem claim_C2_witness :
    ∃ a, statusReadAddr TXB0 = some a ∧
      (CAN_Control_TX_CAN_Status h0 TXB0 envZero).2.2 =
        some (txStatusSpec (readByte envZero a)) :=
  claim_C2_tx_status_decode h0 envZero TXB0 (Or.inl rfl) (Or.inl rfl)

/-- C3 counterexample: the claim states the transmitter requests TXREQ by
a bit-modify that leaves the other TXBnCTRL bits (the TXP priority bits in
particular) unchanged.  Starting from a register file whose TXB0CTRL holds
TXP = 0x03 and sending a standard data frame on TXB0, the register ends at
0x08: the TXP bits are cleared, not preserved (a bit-modify of TXREQ alone
would have left 0x0B). -/
theorem claim_C3_counterexample :
    applyTrace regsTXP (CAN_Control_Send_CAN_Frame h0 txStd0).2 TXB0CTRL_REG = 0x08 ∧
      regsTXP TXB0CTRL_REG ||| TXREQ_PENDING = 0x0B ∧ (0x08 : Nat) ≠ 0x0B := by
  decide

/-- C3 amended: for every selected TX buffer, the transmitter requests
transmission with a one-byte register WRITE of TXREQ_PENDING (0x08) to
TXBnCTRL — overwriting the whole byte, TXP priority bits included — and
its trace contains no BIT-MODIFY operation at all. -/
theorem claim_C3_txreq_full_write (hcan : CAN_Control_HandleTypeDef)
    (txcan : CAN_Control_TX) (n : Nat) (hn : n < 3)
    (hsel : txcan.txbuffernmbr &&& txbBit n = txbBit n) :
    RegOp.write (txbnCTRLreg n) [TXREQ_PENDING] ∈ (CAN_Control_Send_CAN_Frame hcan txcan).2 ∧
      ∀ a m d, RegOp.bitMod a m d ∉ (CAN_Control_Send_CAN_Frame hcan txcan).2 := by
  refine ⟨?_, fun a m d => bitMod_not_mem_send hcan txcan a m d⟩
  obtain ⟨pre, suf, heq⟩ := send_trace_decomp hcan txcan n hn hsel
  rw [heq]
  simp

/-- C3 witness: the TXB0 request write appears in the trace of a concrete
standard-data send. -/
theorem claim_C3_witness :
    RegOp.write (txbnCTRLreg 0) [TXREQ_PENDING] ∈ (CAN_Control_Send_CAN_Frame h0 txStd0).2 :=
  (claim_C3_txreq_full_write h0 txStd0 0 (by decide) (by decide)).1

/-- C4: when the receiver processes RX buffer 1, the payload of an
extended data frame is read starting at RXB1D0, the payload of a standard
data frame starting at RXB1D1, and in both cases the read length is
exactly the DLC nibble decoded from the RXB1DLC byte. -/
theorem claim_C4_rxb1_data_addresses (hcan : CAN_Control_HandleTypeDef)
    (rxcan : CAN_Control_RX) (env : Nat → Nat)
    (hsel : rxcan.rxbuffernmbr &&& RXB1 = RXB1) :
    ((readByte env RXB1SIDL_REG) &&& IDE_RECEIVED_EXTENDED_FRAME = IDE_RECEIVED_EXTENDED_FRAME →
      ¬ ((readByte env RXB1DLC_REG) &&& RTR_RECEIVED_REMOTE_FRAME_REQUEST =
          RTR_RECEIVED_REMOTE_FRAME_REQUEST) →
      RegOp.readN RXB1D0_REG ((readByte env RXB1DLC_REG) &&& DLC_MASK) ∈
        (CAN_Control_Read_CAN_Frame hcan rxcan env).2.2) ∧
    (¬ ((readByte env RXB1SIDL_REG) &&& IDE_RECEIVED_EXTENDED_FRAME = IDE_RECEIVED_EXTENDED_FRAME) →
      ¬ ((readByte env RXB1SIDL_REG) &&& SRR_RECEIVED_STANDARD_REMOTE_REQUEST =
          SRR_RECEIVED_STANDARD_REMOTE_REQUEST) →
      RegOp.readN RXB1D1_REG ((readByte env RXB1DLC_REG) &&& DLC_MASK) ∈
        (CAN_Control_Read_CAN_Frame hcan rxcan env).2.2) := by
  constructor
  · intro hide hrtr
    simp [CAN_Control_Read_CAN_Frame, readRXB1, regRead, hsel, hide, hrtr]
  · intro hide hsrr
    simp [CAN_Control_Read_CAN_Frame, readRXB1, regRead, hsel, hide, hsrr]

/-- C4 witness: with RXB1 selected and an oracle presenting an extended
data frame of DLC 0 in RXB1, the data read from RXB1D0 is in the trace. -/
theorem claim_C4_witness :
    RegOp.readN RXB1D0_REG ((readByte envRXB1ext RXB1DLC_REG) &&& DLC_MASK) ∈
      (CAN_Control_Read_CAN_Frame h0 rxSel1 envRXB1ext).2.2 :=
  (claim_C4_rxb1_data_addresses h0 rxSel1 envRXB1ext (by decide)).1 (by decide) (by decide)

/-- C5 counterexample: the claim states that a send with DLC greater than
8 has no observable effect; but the transmitter performs no DLC
validation — with TXB0 selected and DLC 9 it still emits the ID burst and
the TXREQ request write. -/
theorem claim_C5_counterexample :
    (CAN_Control_Send_CAN_Frame h0 tx9).2 ≠ [] ∧
      RegOp.write TXB0CTRL_REG [TXREQ_PENDING] ∈ (CAN_Control_Send_CAN_Frame h0 tx9).2 := by
  decide

/-- C5 amended: init with an unrecognised transport selector, baud-rate
programming with an unsupported rate, and mode setting with a mode outside
the five enumerated values are silent no-ops (empty trace); but the
transmitter performs no DLC validation — with a selected buffer it still
issues SPI register writes even when the DLC exceeds 8. -/
theorem claim_C5_invalid_config_noop :
    (∀ hcan : CAN_Control_HandleTypeDef, hcan.spi ≠ CAN_SPI1 → hcan.spi ≠ CAN_SPI2 →
      (CAN_Control_Init hcan).2 = []) ∧
    (∀ (hcan : CAN_Control_HandleTypeDef) (b : Nat),
      b ≠ CAN_BAUD_500_KBPS → b ≠ CAN_BAUD_250_KBPS → b ≠ CAN_BAUD_125_KBPS →
      b ≠ CAN_BAUD_100_KBPS → b ≠ CAN_BAUD_50_KBPS →
      (CAN_Control_Set_Baud_Rate hcan b).2 = []) ∧
    (∀ (hcan : CAN_Control_HandleTypeDef) (m : Nat),
      m ≠ NORMAL_OP_MODE → m ≠ SLEEP_OP_MODE → m ≠ LOOPBACK_OP_MODE →
      m ≠ LISTEN_ONLY_OP_MODE → m ≠ CONFIGURATION_OP_MODE →
      (CAN_Control_Set_Op_Mode hcan m).2 = []) ∧
    (∀ (hcan : CAN_Control_HandleTypeDef) (txcan : CAN_Control_TX),
      txcan.txbuffernmbr &&& TXB0 = TXB0 → 8 < txcan.datalength 0 →
      (CAN_Control_Send_CAN_Frame hcan txcan).2 ≠ []) := by
  refine ⟨?_, ?_, ?_, ?_⟩
  · intro hcan h1 h2
    simp [CAN_Control_Init, h1, h2]
  · intro hcan b h1 h2 h3 h4 h5
    simp [CAN_Control_Set_Baud_Rate, h1, h2, h3, h4, h5]
  · intro hcan m h1 h2 h3 h4 h5
    simp [CAN_Control_Set_Op_Mode, h1, h2, h3, h4, h5]
  · intro hcan txcan hsel _
    simp only [CAN_Control_Send_CAN_Frame]
    rw [if_pos hsel]
    unfold sendBuffer sendBufferHead
    split <;> simp [regWrite]

/-- C5 witness: the three no-ops at concrete invalid inputs, and the
non-empty trace of a DLC-9 send. -/
theorem claim_C5_witness :
    (CAN_Control_Init hBadSpi).2 = [] ∧
      (CAN_Control_Set_Baud_Rate h0 123456).2 = [] ∧
      (CAN_Control_Set_Op_Mode h0 7).2 = [] ∧
      (CAN_Control_Send_CAN_Frame h0 tx9).2 ≠ [] :=
  ⟨claim_C5_invalid_config_noop.1 hBadSpi (by decide) (by decide),
   claim_C5_invalid_config_noop.2.1 h0 123456 (by decide) (by decide) (by decide)
     (by decide) (by decide),
   claim_C5_invalid_config_noop.2.2.1 h0 7 (by decide) (by decide) (by decide)
     (by decide) (by decide),
   claim_C5_invalid_config_noop.2.2.2 h0 tx9 (by decide) (by decide)⟩

/-- C6: for each of the five supported rates, the baud-rate programmer
emits exactly one three-byte write {CNF3, CNF2, CNF1} starting at the CNF3
address (followed by the primitive's 50 µs settling delay), with bytes
matching the 8 MHz planner table — 500k: BRP 0, PropSeg 2, PS1 2, PS2 3;
250k: BRP 0, PropSeg 4, PS1 5, PS2 6; 125k: BRP 1, PropSeg 3, PS1 6,
PS2 6; 100k: BRP 1, PropSeg 6, PS1 6, PS2 7; 50k: BRP 3, PropSeg 6,
PS1 6, PS2 7; all with SJW 1, CNF3 carrying the handle's wake-up-filter
bit, CNF2 carrying BTLMODE=1 and the handle's sample-point selector. -/
theorem claim_C6_baud_rate_tables (hcan : CAN_Control_HandleTypeDef) :
    (CAN_Control_Set_Baud_Rate hcan CAN_BAUD_500_KBPS).2 =
      [RegOp.write CNF3_REG
        [cnf3enc hcan.wakeupfilter 3, cnf2enc hcan.samplepoint 2 2, cnf1enc 1 0],
       RegOp.delay 50] ∧
    (CAN_Control_Set_Baud_Rate hcan CAN_BAUD_250_KBPS).2 =
      [RegOp.write CNF3_REG
        [cnf3enc hcan.wakeupfilter 6, cnf2enc hcan.samplepoint 5 4, cnf1enc 1 0],
       RegOp.delay 50] ∧
    (CAN_Control_Set_Baud_Rate hcan CAN_BAUD_125_KBPS).2 =
      [RegOp.write CNF3_REG
        [cnf3enc hcan.wakeupfilter 6, cnf2enc hcan.samplepoint 6 3, cnf1enc 1 1],
       RegOp.delay 50] ∧
    (CAN_Control_Set_Baud_Rate hcan CAN_BAUD_100_KBPS).2 =
      [RegOp.write CNF3_REG
        [cnf3enc hcan.wakeupfilter 7, cnf2enc hcan.samplepoint 6 6, cnf1enc 1 1],
       RegOp.delay 50] ∧
    (CAN_Control_Set_Baud_Rate hcan CAN_BAUD_50_KBPS).2 =
      [RegOp.write CNF3_REG
        [cnf3enc hcan.wakeupfilter 7, cnf2enc hcan.samplepoint 6 6, cnf1enc 1 3],
       RegOp.delay 50] :=
  ⟨rfl, rfl, rfl, rfl, rfl⟩

/-- C7: after setting TXREQ for a selected buffer (the one-byte TXBnCTRL
write and its 50 µs settling delay), the transmitter blocks for exactly
the worst-case on-bus time of that buffer's frame, computed in integer
arithmetic: `(8·dlc + 44 + (33 + 8·dlc)/4)·(1000000/baud)` µs for standard
data frames, `(8·dlc + 64 + (53 + 8·dlc)/4)·(1000000/baud)` µs for
extended data frames, `50·(1000000/baud)` µs for standard remote frames
and `73·(1000000/baud)` µs for extended remote frames. -/
theorem claim_C7_worst_case_wait (hcan : CAN_Control_HandleTypeDef)
    (txcan : CAN_Control_TX) (n : Nat) (hn : n < 3)
    (hsel : txcan.txbuffernmbr &&& txbBit n = txbBit n) :
    (∃ pre suf, (CAN_Control_Send_CAN_Frame hcan txcan).2 =
      pre ++ [RegOp.write (txbnCTRLreg n) [TXREQ_PENDING], RegOp.delay 50,
              RegOp.delay (waitOf (txcan.txframetype n) (txcan.datalength n) hcan.baudrate)] ++ suf) ∧
    (txcan.txframetype n = TX_STANDARD_DATA_FRAME →
      waitOf (txcan.txframetype n) (txcan.datalength n) hcan.baudrate =
        (8 * txcan.datalength n + 44 + (33 + 8 * txcan.datalength n) / 4) *
          (1000000 / hcan.baudrate)) ∧
    (txcan.txframetype n = TX_EXTENDED_DATA_FRAME →
      waitOf (txcan.txframetype n) (txcan.datalength n) hcan.baudrate =
        (8 * txcan.datalength n + 64 + (53 + 8 * txcan.datalength n) / 4) *
          (1000000 / hcan.baudrate)) ∧
    (txcan.txframetype n = TX_STANDARD_REMOTE_FRAME →
      waitOf (txcan.txframetype n) (txcan.datalength n) hcan.baudrate =
        50 * (1000000 / hcan.baudrate)) ∧
    (txcan.txframetype n = TX_EXTENDED_REMOTE_FRAME →
      waitOf (txcan.txframetype n) (txcan.datalength n) hcan.baudrate =
        73 * (1000000 / hcan.baudrate)) := by
  refine ⟨send_trace_decomp hcan txcan n hn hsel, ?_, ?_, ?_, ?_⟩ <;>
    · intro he
      simp [waitOf, he, TX_STANDARD_DATA_FRAME, TX_EXTENDED_DATA_FRAME,
        TX_STANDARD_REMOTE_FRAME, TX_EXTENDED_REMOTE_FRAME,
        WAIT_SEND_STANDARD_DATA_FRAME, WAIT_SEND_EXTENDED_DATA_FRAME,
        WAIT_SEND_STANDARD_REMOTE_FRAME, WAIT_SEND_EXTENDED_REMOTE_FRAME]

/-- C7 witness: for the concrete standard-data send on TXB0 the dispatched
wait equals the standard-data worst-case formula. -/
theorem claim_C7_witness :
    waitOf (txStd0.txframetype 0) (txStd0.datalength 0) h0.baudrate =
      (8 * txStd0.datalength 0 + 44 + (33 + 8 * txStd0.datalength 0) / 4) *
        (1000000 / h0.baudrate) :=
  (claim_C7_worst_case_wait h0 txStd0 0 (by decide) (by decide)).2.1 (by decide)

/-- C8 counterexample: the claim states the post-reset oscillator
start-up delay is 16 ms at 8 MHz; the code delays
`GET_OST(8 MHz) = 128000000/8000000 = 16` µs, and 16 µs is not 16 ms
(16000 µs). -/
theorem claim_C8_counterexample :
    (CAN_Control_Reset h0).2 = [RegOp.resetIns, RegOp.delay 50, RegOp.delay 16] ∧
      GET_OST OSC1_FREQ = 16 ∧ (16 : Nat) ≠ 16000 := by
  decide

/-- C8 amended: with a valid transport selector the reset lowers to one
chip-select-framed write of the RESET opcode 0xC0, a 50 µs instruction
delay, then the oscillator start-up delay `128000000/osc_hz` µs — which at
the 8 MHz oscillator is 16 µs (not 16 ms). -/
theorem claim_C8_reset_sequence (hcan : CAN_Control_HandleTypeDef)
    (hspi : hcan.spi = CAN_SPI1 ∨ hcan.spi = CAN_SPI2) :
    ((CAN_Control_Reset hcan).2).flatMap (RegOp.lower hcan.spi) =
      [SpiEv.csOn, SpiEv.wr RESET_INS, SpiEv.csOff, SpiEv.delay 50,
       SpiEv.delay (128000000 / OSC1_FREQ)] ∧
      128000000 / OSC1_FREQ = 16 := by
  refine ⟨?_, by norm_num [OSC1_FREQ]⟩
  rcases hspi with hs | hs <;>
    simp [CAN_Control_Reset, RegOp.lower, hs, GET_OST, OSC1_FREQ, CAN_SPI1, CAN_SPI2]

/-- C8 witness: the lowered reset trace of the concrete SPI1 handle. -/
theorem claim_C8_witness :
    ((CAN_Control_Reset h0).2).flatMap (RegOp.lower h0.spi) =
      [SpiEv.csOn, SpiEv.wr RESET_INS, SpiEv.csOff, SpiEv.delay 50,
       SpiEv.delay (128000000 / OSC1_FREQ)] ∧
      128000000 / OSC1_FREQ = 16 :=
  claim_C8_reset_sequence h0 (Or.inl rfl)

/-- C9: every driver operation returns the handle unchanged — the handle
is immutable across the whole API (none of the C functions assigns to any
`hcan->` field); in particular no operation other than
`CAN_Control_Set_Op_Mode` ever changes the `opmode` field, and even that
function only writes the chip's CANCTRL register, not the handle. -/
theorem claim_C9_handle_immutable (hcan : CAN_Control_HandleTypeDef)
    (m b ints errs tb : Nat) (env : Nat → Nat) (txcan : CAN_Control_TX)
    (rxcan : CAN_Control_RX) (hmask : CAN_Control_RX_Mask)
    (hfilter : CAN_Control_RX_Filter) :
    (CAN_Control_Init hcan).1 = hcan ∧
    (CAN_Control_Reset hcan).1 = hcan ∧
    (CAN_Control_Set_Op_Mode hcan m).1 = hcan ∧
    (CAN_Control_Set_Baud_Rate hcan b).1 = hcan ∧
    (CAN_Control_Set_RX_Mask hcan hmask).1 = hcan ∧
    (CAN_Control_Set_RX_Filter hcan hfilter).1 = hcan ∧
    (CAN_Control_Send_CAN_Frame hcan txcan).1 = hcan ∧
    (CAN_Control_Read_CAN_Frame hcan rxcan env).1 = hcan ∧
    (CAN_Control_TX_CAN_Status hcan tb env).1 = hcan ∧
    (CAN_Control_TX_CAN_Abort hcan tb).1 = hcan ∧
    (CAN_Control_TX_CAN_Abort_All hcan).1 = hcan ∧
    (CAN_Control_Enable_INT hcan ints).1 = hcan ∧
    (CAN_Control_INT_Status hcan env).1 = hcan ∧
    (CAN_Control_Clear_INT_Status hcan ints).1 = hcan ∧
    (CAN_Control_ERR_Status hcan env).1 = hcan ∧
    (CAN_Control_Clear_ERR_Status hcan errs).1 = hcan :=
  ⟨rfl, rfl, rfl, rfl, rfl, rfl, rfl, rfl, rfl, rfl, rfl, rfl, rfl, rfl, rfl, rfl⟩

/-- C10: the TX status query is well defined only for the selector values
TXB0 = 0x01, TXB1 = 0x02, TXB2 = 0x04.  For 0x00 and 0x03 the
`tx_buffer <= TXB2` guard passes but no switch case assigns the register
byte, so the returned state derives from an uninitialised local (`none` in
the model); for every selector greater than TXB2 = 0x04 no SPI access is
performed and TX_PENDING (0x00) is returned; for the three valid selectors
(on a valid transport) the result is a defined decoded state. -/
theorem claim_C10_status_precondition (hcan : CAN_Control_HandleTypeDef)
    (env : Nat → Nat) (b : Nat) :
    ((b = 0x00 ∨ b = 0x03) → (CAN_Control_TX_CAN_Status hcan b env).2.2 = none) ∧
    (TXB2 < b → (CAN_Control_TX_CAN_Status hcan b env).2.2 = some TX_PENDING ∧
      (CAN_Control_TX_CAN_Status hcan b env).2.1 = []) ∧
    ((hcan.spi = CAN_SPI1 ∨ hcan.spi = CAN_SPI2) → (b = TXB0 ∨ b = TXB1 ∨ b = TXB2) →
      ∃ v, (CAN_Control_TX_CAN_Status hcan b env).2.2 = some v) := by
  refine ⟨?_, ?_, ?_⟩
  · rintro (rfl | rfl) <;>
      simp [CAN_Control_TX_CAN_Status, statusReadAddr, TXB0, TXB1, TXB2]
  · intro hb
    have hng : ¬ b ≤ TXB2 := Nat.not_le.mpr hb
    simp [CAN_Control_TX_CAN_Status, hng]
  · intro hspi hb
    obtain ⟨a, ha, hres⟩ := tx_status_decode_spec hcan env b hspi hb
    exact ⟨txStatusSpec (readByte env a), hres⟩

/-- C10 witness: the three regimes at concrete selectors 0x00, 0x07 and
TXB0 on the valid handle. -/
theorem claim_C10_witness :
    (CAN_Control_TX_CAN_Status h0 0x00 envZero).2.2 = none ∧
    ((CAN_Control_TX_CAN_Status h0 0x07 envZero).2.2 = some TX_PENDING ∧
      (CAN_Control_TX_CAN_Status h0 0x07 envZero).2.1 = []) ∧
    (∃ v, (CAN_Control_TX_CAN_Status h0 TXB0 envZero).2.2 = some v) :=
  ⟨(claim_C10_status_precondition h0 envZero 0x00).1 (Or.inl rfl),
   (claim_C10_status_precondition h0 envZero 0x07).2.1 (by decide),
   (claim_C10_status_precondition h0 envZero TXB0).2.2 (Or.inl rfl) (Or.inl rfl)⟩
